import Mathlib

/-!
Verification of the candidate-data extraction pipeline of the CV generator
(`models.py`, class `CVProcessor`, together with the defaulting step of
`app.py`, `generate_profile_from_text`).

The Python code is embedded shallowly:

* the regex patterns of `extract_work_experience` / `extract_education`
  (`re.findall`) and the blank-line splitter (`re.split(r'\n\s*\n', ...)`)
  are translated into specialised backtracking matchers over `List Char`;
* the two transformer pipelines (NER, summarization) are opaque capability
  parameters of type `Option (... → Except ...)`; `none` models a pipeline
  that was never loaded (`self.ner_pipeline is None`), `Except.error`
  models a raised exception inside the capability;
* Python exceptions crossing a function boundary are modelled with
  `Except String`.
-/

/-- Python's regex class `\s` / `str.isspace`, restricted to the ASCII
whitespace characters. -/
def isSpacePy (c : Char) : Bool :=
  c = ' ' || c = '\t' || c = '\n' || c = '\r' || c = '\x0b' || c = '\x0c'

/-- Python's `str.strip()` (drop whitespace on both ends). -/
def pyStrip (s : String) : String :=
  String.mk (((s.data.dropWhile isSpacePy).reverse.dropWhile isSpacePy).reverse)

/-- Python's `str.lower()` on the characters this program works with:
ASCII letters plus the German capital umlauts. -/
def lowerChar (c : Char) : Char :=
  if c = 'Ä' then 'ä' else if c = 'Ö' then 'ö' else if c = 'Ü' then 'ü' else c.toLower

/-- Lowercasing of a whole string (Python `str.lower()`). -/
def pyLower (s : String) : String :=
  String.mk (s.data.map lowerChar)

/-- Python's substring test `needle in hay` on char lists. -/
def strContainsL (hay needle : List Char) : Bool :=
  (List.range (hay.length + 1)).any (fun i => needle.isPrefixOf (hay.drop i))

/-- Python's substring test `needle in hay`. -/
def strContains (hay needle : String) : Bool :=
  strContainsL hay.data needle.data

/-- CVProcessor._is_phone_number: remove the separators `[-\s()]`, then require
length between 7 and 15 and at least 70 percent digits.  The Python float
comparison `sum(c.isdigit() ...) >= len(clean) * 0.7` is modelled as
`10 * digits ≥ 7 * len`, which coincides with it for every length in the
guarded range 7..15 (including the rounding of `10 * 0.7`). -/
def is_phone_number (text : String) : Bool :=
  let clean := text.data.filter (fun c => !(c = '-' || isSpacePy c || c = '(' || c = ')'))
  decide (7 ≤ clean.length) && decide (clean.length ≤ 15) &&
    decide (7 * clean.length ≤ 10 * (clean.filter Char.isDigit).length)

/-- One aggregated entity returned by the NER pipeline; mirrors the dict
accesses `entity.get('word', '')` and `entity.get('entity_group', '')`. -/
structure Entity where
  word : String
  entity_group : String
deriving DecidableEq

/-- The identity-resolution loop of `extract_candidate_data`
(models.py lines 178-187): one ordered pass over the NER results with the
`if / elif / elif` chain, accumulating `name`, `email`, `phone`. -/
def resolveLoop : List Entity → String → String → String → String × String × String
  | [], name, email, phone => (name, email, phone)
  | ent :: rest, name, email, phone =>
    if ent.entity_group = "PER" ∧ name = "" then
      resolveLoop rest ent.word email phone
    else if ent.entity_group = "MISC" ∧ ent.word.data.contains '@' ∧ email = "" then
      resolveLoop rest name ent.word phone
    else if ent.entity_group = "MISC" ∧ is_phone_number ent.word ∧ phone = "" then
      resolveLoop rest name email ent.word
    else
      resolveLoop rest name email phone

/-! ## Regex machinery

Specialised deterministic matchers for the three patterns of `models.py`.
For these patterns the Python backtracking search is equivalent to the
deterministic strategies implemented here (the alternatives of the date
patterns are mutually exclusive at any position; the greedy middle class of
the organisation pattern is handled by trying suffix positions from the
longest possible middle downwards). -/

/-- Match exactly `k` ASCII digits (`\d{k}`). -/
def takeDigits : Nat → List Char → Option (List Char × List Char)
  | 0, l => some ([], l)
  | _ + 1, [] => none
  | k + 1, c :: rest =>
    if c.isDigit then (takeDigits k rest).map (fun p => (c :: p.1, p.2)) else none

/-- Match one fixed character. -/
def expectChar (c : Char) : List Char → Option (List Char)
  | [] => none
  | d :: rest => if d = c then some rest else none

/-- Match a literal word. -/
def matchLit (w l : List Char) : Option (List Char × List Char) :=
  if w.isPrefixOf l then some (w, l.drop w.length) else none

/-- Match `\d{1,2}/\d{4}` (greedy: two digits tried before one). -/
def matchSlashYear (l : List Char) : Option (List Char × List Char) :=
  (do
    let p2 ← takeDigits 2 l
    let r2 ← expectChar '/' p2.2
    let p4 ← takeDigits 4 r2
    pure (p2.1 ++ '/' :: p4.1, p4.2))
  <|>
  (do
    let p1 ← takeDigits 1 l
    let r2 ← expectChar '/' p1.2
    let p4 ← takeDigits 4 r2
    pure (p1.1 ++ '/' :: p4.1, p4.2))

/-- Match the experience date pattern
`(\d{1,2}/\d{4}|\d{4})\s*[-–]\s*(\d{1,2}/\d{4}|\d{4}|dato|heute)`
at the head of the list, returning the two captured groups and the rest. -/
def matchDateRange (l : List Char) : Option (String × String × List Char) := do
  let g1 ← matchSlashYear l <|> takeDigits 4 l
  let r1 := g1.2.dropWhile isSpacePy
  let r2 ← expectChar '-' r1 <|> expectChar '–' r1
  let r3 := r2.dropWhile isSpacePy
  let g2 ← matchSlashYear r3 <|> takeDigits 4 r3 <|> matchLit "dato".data r3 <|>
    matchLit "heute".data r3
  pure (String.mk g1.1, String.mk g2.1, g2.2)

/-- Match the education date pattern `(\d{4})\s*[-–]\s*(\d{4}|dato|heute)`
(4-digit years only on the left, no month/year form). -/
def matchEduDateRange (l : List Char) : Option (String × String × List Char) := do
  let g1 ← takeDigits 4 l
  let r1 := g1.2.dropWhile isSpacePy
  let r2 ← expectChar '-' r1 <|> expectChar '–' r1
  let r3 := r2.dropWhile isSpacePy
  let g2 ← takeDigits 4 r3 <|> matchLit "dato".data r3 <|> matchLit "heute".data r3
  pure (String.mk g1.1, String.mk g2.1, g2.2)

/-- The character class `[A-ZÄÖÜ]` opening the organisation pattern. -/
def upperClassB (c : Char) : Bool :=
  ('A' ≤ c && c ≤ 'Z') || c = 'Ä' || c = 'Ö' || c = 'Ü'

/-- The middle character class `[a-zäöüß\s&,.-]` of the organisation pattern. -/
def middleClassB (c : Char) : Bool :=
  ('a' ≤ c && c ≤ 'z') || c = 'ä' || c = 'ö' || c = 'ü' || c = 'ß' ||
    isSpacePy c || c = '&' || c = ',' || c = '.' || c = '-'

/-- The legal-suffix alternation `(?:AG|GmbH|KG|e\.V\.|Inc\.|Ltd\.|Co\.)`,
tried in the source order of the pattern. -/
def suffixAlts : List (List Char) :=
  ["AG".data, "GmbH".data, "KG".data, "e.V.".data, "Inc.".data, "Ltd.".data, "Co.".data]

/-- First legal suffix matching at the head of the list. -/
def firstSuffixMatch : List (List Char) → List Char → Option (List Char × List Char)
  | [], _ => none
  | w :: ws, l => if w.isPrefixOf l then some (w, l.drop w.length) else firstSuffixMatch ws l

/-- Backtracking over the greedy `+` of the organisation pattern: try middle
lengths from `k` down to `1`, first suffix match wins. -/
def companyTryK (c : Char) (rest : List Char) : Nat → Option (String × List Char)
  | 0 => none
  | k + 1 =>
    match firstSuffixMatch suffixAlts (rest.drop (k + 1)) with
    | some (suf, r) => some (String.mk (c :: rest.take (k + 1) ++ suf), r)
    | none => companyTryK c rest k

/-- Match the organisation pattern
`([A-ZÄÖÜÄ][a-zäöüß\s&,.-]+(?:AG|GmbH|KG|e\.V\.|Inc\.|Ltd\.|Co\.))`
at the head of the list. -/
def matchCompany : List Char → Option (String × List Char)
  | [] => none
  | c :: rest =>
    if upperClassB c then companyTryK c rest (rest.takeWhile middleClassB).length
    else none

/-- Fuelled scan of `re.findall` for the experience date pattern: leftmost
non-overlapping matches, scanning resumes after each match.  Every successful
match consumes at least one character, so `fuel = length + 1` is exact. -/
def findallDateGo : Nat → List Char → List (String × String)
  | 0, _ => []
  | _ + 1, [] => []
  | fuel + 1, c :: rest =>
    match matchDateRange (c :: rest) with
    | some (g1, g2, r) => (g1, g2) :: findallDateGo fuel r
    | none => findallDateGo fuel rest

/-- `re.findall(date_pattern, ...)` of `extract_work_experience`. -/
def findallDate (l : List Char) : List (String × String) :=
  findallDateGo (l.length + 1) l

/-- Fuelled scan of `re.findall` for the education date pattern. -/
def findallEduDateGo : Nat → List Char → List (String × String)
  | 0, _ => []
  | _ + 1, [] => []
  | fuel + 1, c :: rest =>
    match matchEduDateRange (c :: rest) with
    | some (g1, g2, r) => (g1, g2) :: findallEduDateGo fuel r
    | none => findallEduDateGo fuel rest

/-- `re.findall(date_pattern, ...)` of `extract_education`. -/
def findallEduDate (l : List Char) : List (String × String) :=
  findallEduDateGo (l.length + 1) l

/-- Fuelled scan of `re.findall` for the organisation pattern. -/
def findallCompanyGo : Nat → List Char → List String
  | 0, _ => []
  | _ + 1, [] => []
  | fuel + 1, c :: rest =>
    match matchCompany (c :: rest) with
    | some (g, r) => g :: findallCompanyGo fuel r
    | none => findallCompanyGo fuel rest

/-- `re.findall(company_pattern, ...)` of `extract_work_experience`. -/
def findallCompany (l : List Char) : List String :=
  findallCompanyGo (l.length + 1) l

/-- Index of the last newline inside a char list, if any. -/
def lastNewlineIdx (w : List Char) : Option Nat :=
  (w.foldl (fun (acc : Option Nat × Nat) c =>
    (if c = '\n' then some acc.2 else acc.1, acc.2 + 1)) (none, 0)).1

/-- Given the text following a `'\n'`, find the greedy match of the remaining
`\s*\n` of the separator `\n\s*\n`: the last newline reachable through
whitespace.  Returns the text after the whole separator. -/
def blankMatchRest (l : List Char) : Option (List Char) :=
  match lastNewlineIdx (l.takeWhile isSpacePy) with
  | some k => some (l.drop (k + 1))
  | none => none

/-- Fuelled splitter: `re.split(r'\n\s*\n', text)` (leftmost separator first,
pieces kept verbatim, empty pieces included). -/
def splitBlankGo : Nat → List Char → List Char → List String
  | 0, l, acc => [String.mk (acc.reverse ++ l)]
  | _ + 1, [], acc => [String.mk acc.reverse]
  | fuel + 1, '\n' :: rest, acc =>
    match blankMatchRest rest with
    | some r => String.mk acc.reverse :: splitBlankGo fuel r []
    | none => splitBlankGo fuel rest ('\n' :: acc)
  | fuel + 1, c :: rest, acc => splitBlankGo fuel rest (c :: acc)

/-- `sections = re.split(r'\n\s*\n', text)` of the two block extractors. -/
def pySplitBlank (text : String) : List String :=
  splitBlankGo (text.data.length + 1) text.data []

/-! ## The block extractors and the skill matcher -/

/-- Work-experience entry (`{'period': ..., 'company': ..., 'description': ...}`). -/
structure ExperienceEntry where
  period : String
  company : String
  description : String
deriving DecidableEq

/-- Education entry (`{'period': ..., 'institution': ..., 'degree': ..., 'description': ...}`). -/
structure EducationEntry where
  period : String
  institution : String
  degree : String
  description : String
deriving DecidableEq

/-- The three skill categories of `extract_skills`. -/
structure Skills where
  edv_kenntnisse : List String
  sonstige_techniken : List String
  sprachkenntnisse : List String
deriving DecidableEq

/-- Experience keywords of `extract_work_experience`. -/
def expKeywords : List String := ["erfahrung", "tätigkeit", "position", "stelle"]

/-- Education keywords of `extract_education`. -/
def eduKeywords : List String :=
  ["ausbildung", "studium", "weiterbildung", "abschluss", "universität", "hochschule", "schule"]

/-- `any(keyword in section.lower() for keyword in kws)`. -/
def hasAnyKeyword (kws : List String) (sec : String) : Bool :=
  kws.any (fun k => strContains (pyLower sec) k)

/-- Loop body of `extract_work_experience`: a section contributes an entry
iff it has an experience keyword and both `re.findall` calls are non-empty. -/
def expStep (experiences : List ExperienceEntry) (sec : String) : List ExperienceEntry :=
  if hasAnyKeyword expKeywords sec then
    let dates := findallDate sec.data
    let companies := findallCompany sec.data
    if dates ≠ [] ∧ companies ≠ [] then
      experiences ++
        [{ period := (dates.headD ("", "")).1 ++ " - " ++ (dates.headD ("", "")).2,
           company := companies.headD "",
           description := pyStrip sec }]
    else experiences
  else experiences

/-- CVProcessor.extract_work_experience (models.py lines 80-106). -/
def extract_work_experience (text : String) : List ExperienceEntry :=
  (pySplitBlank text).foldl expStep []

/-- Loop body of `extract_education`: a section with an education keyword
contributes an entry unconditionally. -/
def eduStep (education : List EducationEntry) (sec : String) : List EducationEntry :=
  if hasAnyKeyword eduKeywords sec then
    let dates := findallEduDate sec.data
    education ++
      [{ period :=
           if dates ≠ [] then (dates.headD ("", "")).1 ++ " - " ++ (dates.headD ("", "")).2
           else "",
         institution := "",
         degree := "",
         description := pyStrip sec }]
  else education

/-- CVProcessor.extract_education (models.py lines 108-130). -/
def extract_education (text : String) : List EducationEntry :=
  (pySplitBlank text).foldl eduStep []

/-- Fixed IT/software vocabulary of `extract_skills`. -/
def it_skills : List String :=
  ["SAP", "MS-Word", "MS-Excel", "MS-Outlook", "Python", "Java", "SQL", "HTML", "CSS"]

/-- Fixed technical vocabulary of `extract_skills`. -/
def technical_skills : List String :=
  ["Schienenfahrzeugbau", "Dokumentation", "Koordination", "Projektmanagement"]

/-- Fixed language vocabulary of `extract_skills`. -/
def languages : List String :=
  ["Deutsch", "Englisch", "Französisch", "Spanisch", "Italienisch"]

/-- Loop body of the three vocabulary scans of `extract_skills`:
`if skill.lower() in text_lower: ...append(skill)`. -/
def skillStep (text_lower : String) (acc : List String) (skill : String) : List String :=
  if strContains text_lower (pyLower skill) then acc ++ [skill] else acc

/-- CVProcessor.extract_skills (models.py lines 132-163). -/
def extract_skills (text : String) : Skills :=
  let text_lower := pyLower text
  { edv_kenntnisse := it_skills.foldl (skillStep text_lower) []
    sonstige_techniken := technical_skills.foldl (skillStep text_lower) []
    sprachkenntnisse := languages.foldl (skillStep text_lower) [] }

/-! ## The profile assembler and the capability adapters -/

/-- The structured output record of `extract_candidate_data`. -/
structure Profile where
  job_title : String
  einkaufskurzprofil : String
  stundenverrechnungssatz : String
  starttermin : String
  name : String
  email : String
  phone : String
  berufserfahrung : List ExperienceEntry
  ausbildung : List EducationEntry
  edv_kenntnisse : List String
  sonstige_techniken : List String
  sprachkenntnisse : List String
  summary : String
  zusaetzliche_bemerkungen : String
deriving DecidableEq

/-- The NER capability: raw text to tagged entities, may raise. -/
abbrev NerFn : Type := String → Except String (List Entity)

/-- The summarization capability: text, max length, min length to summary,
may raise. -/
abbrev SummFn : Type := String → Nat → Nat → Except String String

/-- SUMMARY_MAX_LENGTH of config.py. -/
def SUMMARY_MAX_LENGTH : Nat := 150

/-- SUMMARY_MIN_LENGTH of config.py. -/
def SUMMARY_MIN_LENGTH : Nat := 40

/-- CVProcessor.extract_entities (models.py lines 47-56): raises when the
pipeline was never loaded; an exception inside the pipeline call is caught
and turned into the empty entity list. -/
def extract_entities (ner : Option NerFn) (text : String) : Except String (List Entity) :=
  match ner with
  | none => Except.error "NER pipeline not loaded"
  | some f =>
    match f text with
    | Except.ok res => Except.ok res
    | Except.error _ => Except.ok []

/-- CVProcessor.summarize_text (models.py lines 58-78): raises when the
pipeline was never loaded; otherwise truncates the input to 1024 characters,
delegates, and turns any exception into the fixed fallback string. -/
def summarize_text (summarizer : Option SummFn) (text : String) : Except String String :=
  match summarizer with
  | none => Except.error "Summarizer pipeline not loaded"
  | some f =>
    let t := if text.length > 1024 then String.mk (text.data.take 1024) else text
    match f t SUMMARY_MAX_LENGTH SUMMARY_MIN_LENGTH with
    | Except.ok s => Except.ok s
    | Except.error _ => Except.ok "Zusammenfassung konnte nicht erstellt werden."

/-- CVProcessor._get_empty_template (models.py lines 225-242). -/
def get_empty_template : Profile :=
  { job_title := ""
    einkaufskurzprofil := ""
    stundenverrechnungssatz := "€"
    starttermin := ""
    name := ""
    email := ""
    phone := ""
    berufserfahrung := []
    ausbildung := []
    edv_kenntnisse := []
    sonstige_techniken := []
    sprachkenntnisse := []
    summary := ""
    zusaetzliche_bemerkungen := "" }

/-- CVProcessor.extract_candidate_data (models.py lines 165-223).  `today`
stands for `datetime.now().strftime('%d.%m.%Y')`. -/
def extract_candidate_data (ner : Option NerFn) (summ : Option SummFn)
    (today : String) (raw_text : String) : Except String Profile :=
  if pyStrip raw_text = "" then Except.ok get_empty_template
  else
    match extract_entities ner raw_text with
    | Except.error e => Except.error e
    | Except.ok ner_results =>
      let ident := resolveLoop ner_results "" "" ""
      let work_experience := extract_work_experience raw_text
      let education := extract_education raw_text
      let skills := extract_skills raw_text
      match summarize_text summ raw_text with
      | Except.error e => Except.error e
      | Except.ok summary =>
        Except.ok
          { job_title := "SAP Meister/Techniker"
            einkaufskurzprofil := "X|YYY|XXX|Z"
            stundenverrechnungssatz := "€"
            starttermin := "01.04.2025"
            name := ident.1
            email := ident.2.1
            phone := ident.2.2
            berufserfahrung := work_experience
            ausbildung := education
            edv_kenntnisse := skills.edv_kenntnisse
            sonstige_techniken := skills.sonstige_techniken
            sprachkenntnisse := skills.sprachkenntnisse
            summary := summary
            zusaetzliche_bemerkungen := "Profil automatisch generiert am " ++ today }

/-- DEFAULT_JOB_TITLE of config.py. -/
def DEFAULT_JOB_TITLE : String := "SAP Meister/Techniker"

/-- DEFAULT_EKP of config.py. -/
def DEFAULT_EKP : String := "X|YYY|XXX|Z"

/-- DEFAULT_SVS of config.py. -/
def DEFAULT_SVS : String := "€"

/-- DEFAULT_START_DATE of config.py. -/
def DEFAULT_START_DATE : String := "01.04.2025"

/-- The header-defaulting step of `generate_profile_from_text`
(app.py lines 41-48): fill each of the four header fields with its
DEFAULT_* value when it is empty. -/
def add_default_values (p : Profile) : Profile :=
  { p with
    job_title := if p.job_title = "" then DEFAULT_JOB_TITLE else p.job_title
    einkaufskurzprofil := if p.einkaufskurzprofil = "" then DEFAULT_EKP else p.einkaufskurzprofil
    stundenverrechnungssatz :=
      if p.stundenverrechnungssatz = "" then DEFAULT_SVS else p.stundenverrechnungssatz
    starttermin := if p.starttermin = "" then DEFAULT_START_DATE else p.starttermin }

/-! ## Specification-side characterisations

These definitions restate, in the spec's vocabulary, what the loops above
compute; the claim theorems relate the two. -/

/-- A block qualifies for an experience entry: experience keyword, at least
one date-range match, at least one organisation match. -/
def qualifiesExp (sec : String) : Bool :=
  hasAnyKeyword expKeywords sec && !(findallDate sec.data).isEmpty &&
    !(findallCompany sec.data).isEmpty

/-- The experience entry a qualifying block yields: first date-range match
joined by " - ", first organisation match, trimmed block. -/
def mkExpEntry (sec : String) : ExperienceEntry :=
  { period := ((findallDate sec.data).headD ("", "")).1 ++ " - " ++
      ((findallDate sec.data).headD ("", "")).2
    company := (findallCompany sec.data).headD ""
    description := pyStrip sec }

/-- The education entry an education block yields: first match of the
stricter date pattern (or empty), institution always empty, trimmed block. -/
def mkEduEntry (sec : String) : EducationEntry :=
  { period :=
      if findallEduDate sec.data ≠ [] then
        ((findallEduDate sec.data).headD ("", "")).1 ++ " - " ++
          ((findallEduDate sec.data).headD ("", "")).2
      else ""
    institution := ""
    degree := ""
    description := pyStrip sec }

/-- Word of the first person-tagged entity with non-empty text. -/
def firstNamePER : List Entity → String
  | [] => ""
  | ent :: rest => if ent.entity_group = "PER" ∧ ent.word ≠ "" then ent.word else firstNamePER rest

/-- Word of the first miscellaneous-tagged entity containing an "@". -/
def firstEmailMISC : List Entity → String
  | [] => ""
  | ent :: rest =>
    if ent.entity_group = "MISC" ∧ ent.word.data.contains '@' then ent.word
    else firstEmailMISC rest

/-- Word of the miscellaneous-tagged entity that the phone slot receives:
the first one passing the phone heuristic that is not consumed by the email
branch (an "@"-containing MISC entity seen while the email slot is still
unset fills email instead, even if it passes the phone heuristic). -/
def firstPhoneMISC : List Entity → Bool → String
  | [], _ => ""
  | ent :: rest, emailSet =>
    if ent.entity_group = "MISC" ∧ ent.word.data.contains '@' ∧ emailSet = false then
      firstPhoneMISC rest true
    else if ent.entity_group = "MISC" ∧ is_phone_number ent.word then ent.word
    else firstPhoneMISC rest emailSet

/-! ## Helper lemmas -/

theorem word_ne_empty_of_at {s : String} (h : s.data.contains '@' = true) : s ≠ "" := by
  intro hs
  rw [hs] at h
  exact absurd h (by decide)

theorem word_ne_empty_of_phone {s : String} (h : is_phone_number s = true) : s ≠ "" := by
  intro hs
  rw [hs] at h
  exact absurd h (by decide)

theorem expStep_foldl (l : List String) :
    ∀ acc, l.foldl expStep acc = acc ++ (l.filter qualifiesExp).map mkExpEntry := by
  induction l with
  | nil => intro acc; simp
  | cons s rest ih =>
    intro acc
    rw [List.foldl_cons, ih]
    by_cases hk : hasAnyKeyword expKeywords s
    · rcases hd : findallDate s.data with _ | ⟨d, ds⟩
      · have hq : qualifiesExp s = false := by simp [qualifiesExp, hd]
        rw [List.filter_cons_of_neg (by simp [hq])]
        simp [expStep, hk, hd]
      · rcases hc : findallCompany s.data with _ | ⟨c0, cs⟩
        · have hq : qualifiesExp s = false := by simp [qualifiesExp, hc]
          rw [List.filter_cons_of_neg (by simp [hq])]
          simp [expStep, hk, hd, hc]
        · have hq : qualifiesExp s = true := by simp [qualifiesExp, hk, hd, hc]
          rw [List.filter_cons_of_pos (by simp [hq])]
          simp [expStep, hk, hd, hc, mkExpEntry]
    · have hq : qualifiesExp s = false := by simp [qualifiesExp, hk]
      rw [List.filter_cons_of_neg (by simp [hq])]
      simp [expStep, hk]

theorem eduStep_foldl (l : List String) :
    ∀ acc,
      l.foldl eduStep acc =
        acc ++ (l.filter (hasAnyKeyword eduKeywords)).map mkEduEntry := by
  induction l with
  | nil => intro acc; simp
  | cons s rest ih =>
    intro acc
    rw [List.foldl_cons, ih]
    by_cases hk : hasAnyKeyword eduKeywords s
    · rw [List.filter_cons_of_pos (by simp [hk])]
      simp [eduStep, hk, mkEduEntry]
    · rw [List.filter_cons_of_neg (by simp [hk])]
      simp [eduStep, hk]

theorem skillStep_foldl (tl : String) (l : List String) :
    ∀ acc,
      l.foldl (skillStep tl) acc =
        acc ++ l.filter (fun s => strContains tl (pyLower s)) := by
  induction l with
  | nil => intro acc; simp
  | cons s rest ih =>
    intro acc
    rw [List.foldl_cons, ih]
    by_cases hs : strContains tl (pyLower s)
    · rw [List.filter_cons_of_pos (by simp [hs])]
      simp [skillStep, hs]
    · rw [List.filter_cons_of_neg (by simp [hs])]
      simp [skillStep, hs]

theorem ifEqThen {c : Prop} [Decidable c] {α : Type} {x y z : α} (h : c → x = y) :
    (if c then x else z) = (if c then y else z) := by
  by_cases hc : c
  · rw [if_pos hc, if_pos hc]
    exact h hc
  · rw [if_neg hc, if_neg hc]

theorem resolve_name (es : List Entity) :
    ∀ n e p, (resolveLoop es n e p).1 = if n = "" then firstNamePER es else n := by
  induction es with
  | nil =>
    intro n e p
    by_cases h : n = "" <;> simp [resolveLoop, firstNamePER, h]
  | cons ent rest ih =>
    intro n e p
    simp only [resolveLoop]
    by_cases h1 : ent.entity_group = "PER" ∧ n = ""
    · rw [if_pos h1, ih]
      obtain ⟨hg, hn⟩ := h1
      subst hn
      rw [if_pos (show ("" : String) = "" from rfl)]
      by_cases hw : ent.word = ""
      · rw [if_pos hw, firstNamePER, if_neg (by simp [hw])]
      · rw [if_neg hw, firstNamePER, if_pos ⟨hg, hw⟩]
    · rw [if_neg h1]
      have key : ∀ e' p',
          (resolveLoop rest n e' p').1 = if n = "" then firstNamePER (ent :: rest) else n := by
        intro e' p'
        rw [ih]
        refine ifEqThen fun hn => ?_
        rw [firstNamePER, if_neg (fun hx => h1 ⟨hx.1, hn⟩)]
      by_cases h2 : ent.entity_group = "MISC" ∧ ent.word.data.contains '@' ∧ e = ""
      · rw [if_pos h2]
        exact key ent.word p
      · rw [if_neg h2]
        by_cases h3 : ent.entity_group = "MISC" ∧ is_phone_number ent.word ∧ p = ""
        · rw [if_pos h3]
          exact key e ent.word
        · rw [if_neg h3]
          exact key e p

theorem resolve_email (es : List Entity) :
    ∀ n e p, (resolveLoop es n e p).2.1 = if e = "" then firstEmailMISC es else e := by
  induction es with
  | nil =>
    intro n e p
    by_cases h : e = "" <;> simp [resolveLoop, firstEmailMISC, h]
  | cons ent rest ih =>
    intro n e p
    simp only [resolveLoop]
    by_cases h1 : ent.entity_group = "PER" ∧ n = ""
    · rw [if_pos h1, ih]
      refine ifEqThen fun he => ?_
      rw [firstEmailMISC,
        if_neg (fun hx => by rw [h1.1] at hx; exact absurd hx.1 (by decide))]
    · rw [if_neg h1]
      by_cases h2 : ent.entity_group = "MISC" ∧ ent.word.data.contains '@' ∧ e = ""
      · rw [if_pos h2, ih]
        obtain ⟨hg, hat, he⟩ := h2
        subst he
        have hw : ent.word ≠ "" := word_ne_empty_of_at hat
        rw [if_neg hw, if_pos (show ("" : String) = "" from rfl),
          firstEmailMISC, if_pos ⟨hg, hat⟩]
      · rw [if_neg h2]
        have key : ∀ p',
            (resolveLoop rest n e p').2.1 = if e = "" then firstEmailMISC (ent :: rest) else e := by
          intro p'
          rw [ih]
          refine ifEqThen fun he => ?_
          rw [firstEmailMISC, if_neg (fun hx => h2 ⟨hx.1, hx.2, he⟩)]
        by_cases h3 : ent.entity_group = "MISC" ∧ is_phone_number ent.word ∧ p = ""
        · rw [if_pos h3]
          exact key ent.word
        · rw [if_neg h3]
          exact key p

theorem resolve_phone (es : List Entity) :
    ∀ n e p, (resolveLoop es n e p).2.2 = if p = "" then firstPhoneMISC es (!(e == "")) else p := by
  induction es with
  | nil =>
    intro n e p
    by_cases h : p = "" <;> simp [resolveLoop, firstPhoneMISC, h]
  | cons ent rest ih =>
    intro n e p
    simp only [resolveLoop]
    by_cases h1 : ent.entity_group = "PER" ∧ n = ""
    · rw [if_pos h1, ih]
      refine ifEqThen fun hp => ?_
      rw [firstPhoneMISC,
        if_neg (fun hx => by rw [h1.1] at hx; exact absurd hx.1 (by decide)),
        if_neg (fun hx => by rw [h1.1] at hx; exact absurd hx.1 (by decide))]
    · rw [if_neg h1]
      by_cases h2 : ent.entity_group = "MISC" ∧ ent.word.data.contains '@' ∧ e = ""
      · rw [if_pos h2, ih]
        obtain ⟨hg, hat, he⟩ := h2
        subst he
        have hw : ent.word ≠ "" := word_ne_empty_of_at hat
        have hbw : (!(ent.word == "")) = true := by simp [hw]
        rw [hbw]
        refine ifEqThen fun hp => ?_
        rw [show (!(("" : String) == "")) = false from rfl, firstPhoneMISC,
          if_pos ⟨hg, hat, by trivial⟩]
      · rw [if_neg h2]
        by_cases h3 : ent.entity_group = "MISC" ∧ is_phone_number ent.word ∧ p = ""
        · rw [if_pos h3, ih]
          obtain ⟨hg, hph, hp⟩ := h3
          subst hp
          have hw : ent.word ≠ "" := word_ne_empty_of_phone hph
          rw [if_neg hw, if_pos (show ("" : String) = "" from rfl), firstPhoneMISC]
          by_cases he : e = ""
          · rw [if_neg (fun hx => h2 ⟨hx.1, hx.2.1, he⟩), if_pos ⟨hg, hph⟩]
          · have hbe : (!(e == "")) = true := by simp [he]
            rw [if_neg (fun hx => by rw [hbe] at hx; exact absurd hx.2.2 (by decide)),
              if_pos ⟨hg, hph⟩]
        · rw [if_neg h3, ih]
          refine ifEqThen fun hp => ?_
          rw [firstPhoneMISC]
          by_cases he : e = ""
          · rw [if_neg (fun hx => h2 ⟨hx.1, hx.2.1, he⟩),
              if_neg (fun hx => h3 ⟨hx.1, hx.2, hp⟩)]
          · have hbe : (!(e == "")) = true := by simp [he]
            rw [if_neg (fun hx => by rw [hbe] at hx; exact absurd hx.2.2 (by decide)),
              if_neg (fun hx => h3 ⟨hx.1, hx.2, hp⟩)]

theorem ecd_entities_error (ner : Option NerFn) (summ : Option SummFn)
    (today raw e : String) (hraw : ¬pyStrip raw = "")
    (hent : extract_entities ner raw = Except.error e) :
    extract_candidate_data ner summ today raw = Except.error e := by
  unfold extract_candidate_data
  rw [if_neg hraw, hent]

theorem ecd_sum_error (ner : Option NerFn) (summ : Option SummFn)
    (today raw : String) (ents : List Entity) (e : String) (hraw : ¬pyStrip raw = "")
    (hent : extract_entities ner raw = Except.ok ents)
    (hsum : summarize_text summ raw = Except.error e) :
    extract_candidate_data ner summ today raw = Except.error e := by
  unfold extract_candidate_data
  rw [if_neg hraw, hent, hsum]

theorem ecd_ok (ner : Option NerFn) (summ : Option SummFn)
    (today raw : String) (ents : List Entity) (s : String) (hraw : ¬pyStrip raw = "")
    (hent : extract_entities ner raw = Except.ok ents)
    (hsum : summarize_text summ raw = Except.ok s) :
    extract_candidate_data ner summ today raw = Except.ok
      { job_title := "SAP Meister/Techniker"
        einkaufskurzprofil := "X|YYY|XXX|Z"
        stundenverrechnungssatz := "€"
        starttermin := "01.04.2025"
        name := (resolveLoop ents "" "" "").1
        email := (resolveLoop ents "" "" "").2.1
        phone := (resolveLoop ents "" "" "").2.2
        berufserfahrung := extract_work_experience raw
        ausbildung := extract_education raw
        edv_kenntnisse := (extract_skills raw).edv_kenntnisse
        sonstige_techniken := (extract_skills raw).sonstige_techniken
        sprachkenntnisse := (extract_skills raw).sprachkenntnisse
        summary := s
        zusaetzliche_bemerkungen := "Profil automatisch generiert am " ++ today } := by
  unfold extract_candidate_data
  rw [if_neg hraw, hent, hsum]

instance {e a : Type} [DecidableEq e] [DecidableEq a] : DecidableEq (Except e a) :=
  fun x y =>
    match x, y with
    | Except.error u, Except.error v =>
      if h : u = v then isTrue (congrArg Except.error h)
      else isFalse (fun hx => h (Except.error.inj hx))
    | Except.ok u, Except.ok v =>
      if h : u = v then isTrue (congrArg Except.ok h)
      else isFalse (fun hx => h (Except.ok.inj hx))
    | Except.error _, Except.ok _ => isFalse (fun hx => Except.noConfusion hx)
    | Except.ok _, Except.error _ => isFalse (fun hx => Except.noConfusion hx)

/-! ## The claims -/

/-- C2: for every empty or whitespace-only input, `extract_candidate_data`
returns the empty-template profile — every collection field the empty list,
every string field the empty string except `stundenverrechnungssatz`, which
is the fixed placeholder "€" — for any state of the recognizer and
summarizer capabilities, i.e. without attempting entity recognition, block
extraction, skill matching or summarization. -/
theorem claim_C2 (ner : Option NerFn) (summ : Option SummFn) (today raw : String)
    (h : pyStrip raw = "") :
    extract_candidate_data ner summ today raw = Except.ok
      { job_title := "", einkaufskurzprofil := "", stundenverrechnungssatz := "€",
        starttermin := "", name := "", email := "", phone := "", berufserfahrung := [],
        ausbildung := [], edv_kenntnisse := [], sonstige_techniken := [],
        sprachkenntnisse := [], summary := "", zusaetzliche_bemerkungen := "" } := by
  unfold extract_candidate_data
  rw [if_pos h]
  rfl

/-- C2 witness: the whitespace-only input " \n " with both capabilities
absent still yields the empty template. -/
theorem claim_C2_witness :
    extract_candidate_data none none "01.01.2025" " \n " = Except.ok
      { job_title := "", einkaufskurzprofil := "", stundenverrechnungssatz := "€",
        starttermin := "", name := "", email := "", phone := "", berufserfahrung := [],
        ausbildung := [], edv_kenntnisse := [], sonstige_techniken := [],
        sprachkenntnisse := [], summary := "", zusaetzliche_bemerkungen := "" } :=
  claim_C2 none none "01.01.2025" " \n " (by decide)

/-- C3: `extract_work_experience` returns, in source-block order, exactly one
entry for each blank-line-delimited block that contains an experience keyword
(case-insensitively), at least one date-range match and at least one
legal-suffix organisation match; the entry's period is the first date-range
match joined by " - ", its company the first organisation match, its
description the trimmed block; blocks failing any condition yield nothing. -/
theorem claim_C3 (text : String) :
    extract_work_experience text =
      ((pySplitBlank text).filter qualifiesExp).map mkExpEntry := by
  unfold extract_work_experience
  rw [expStep_foldl, List.nil_append]

/-- C4: `extract_education` returns, in source-block order, exactly one entry
for every blank-line-delimited block containing an education keyword
(case-insensitively), unconditionally; the period is the first match of the
stricter education date pattern joined by " - " (or empty when there is
none) and the institution field is always empty (see `mkEduEntry`). -/
theorem claim_C4 (text : String) :
    extract_education text =
      ((pySplitBlank text).filter (hasAnyKeyword eduKeywords)).map mkEduEntry := by
  unfold extract_education
  rw [eduStep_foldl, List.nil_append]

/-- C5: each skill category equals its fixed vocabulary filtered by the
case-insensitive substring test against the full text (hence membership iff
the lowercased term occurs in the lowercased text, in vocabulary order), and
each result list is duplicate-free and drawn from its vocabulary. -/
theorem claim_C5 (text : String) :
    ((extract_skills text).edv_kenntnisse
        = it_skills.filter (fun s => strContains (pyLower text) (pyLower s)) ∧
      (extract_skills text).sonstige_techniken
        = technical_skills.filter (fun s => strContains (pyLower text) (pyLower s)) ∧
      (extract_skills text).sprachkenntnisse
        = languages.filter (fun s => strContains (pyLower text) (pyLower s))) ∧
    ((extract_skills text).edv_kenntnisse.Nodup ∧
      (extract_skills text).sonstige_techniken.Nodup ∧
      (extract_skills text).sprachkenntnisse.Nodup) ∧
    ((extract_skills text).edv_kenntnisse ⊆ it_skills ∧
      (extract_skills text).sonstige_techniken ⊆ technical_skills ∧
      (extract_skills text).sprachkenntnisse ⊆ languages) := by
  have h1 : (extract_skills text).edv_kenntnisse
      = it_skills.filter (fun s => strContains (pyLower text) (pyLower s)) :=
    (skillStep_foldl (pyLower text) it_skills []).trans (List.nil_append _)
  have h2 : (extract_skills text).sonstige_techniken
      = technical_skills.filter (fun s => strContains (pyLower text) (pyLower s)) :=
    (skillStep_foldl (pyLower text) technical_skills []).trans (List.nil_append _)
  have h3 : (extract_skills text).sprachkenntnisse
      = languages.filter (fun s => strContains (pyLower text) (pyLower s)) :=
    (skillStep_foldl (pyLower text) languages []).trans (List.nil_append _)
  refine ⟨⟨h1, h2, h3⟩, ⟨?_, ?_, ?_⟩, ?_, ?_, ?_⟩
  · rw [h1]
    exact List.Nodup.filter _ (by decide)
  · rw [h2]
    exact List.Nodup.filter _ (by decide)
  · rw [h3]
    exact List.Nodup.filter _ (by decide)
  · rw [h1]
    exact List.filter_subset' _
  · rw [h2]
    exact List.filter_subset' _
  · rw [h3]
    exact List.filter_subset' _

/-- C7: `summarize_text` with a loaded summarizer delegates on the prefix of
at most the first 1024 characters of the input with the configured maximum
and minimum output lengths, returns the capability's summary on success, and
returns the fixed localized fallback string on any capability error instead
of propagating it. -/
theorem claim_C7 (f : SummFn) (text : String) :
    summarize_text (some f) text =
      match f (String.mk (text.data.take 1024)) SUMMARY_MAX_LENGTH SUMMARY_MIN_LENGTH with
      | Except.ok s => Except.ok s
      | Except.error _ => Except.ok "Zusammenfassung konnte nicht erstellt werden." := by
  obtain ⟨l⟩ := text
  unfold summarize_text
  rw [show (String.mk l).data = l from rfl]
  by_cases h : (String.mk l).length > 1024
  · rw [if_pos h]
  · rw [if_neg h]
    have hl : l.length ≤ 1024 := Nat.le_of_not_lt h
    rw [List.take_of_length_le hl]

/-- C6 entity list used by the counterexample: the first person-tagged
entity has empty text, and the first MISC entity passing the phone
heuristic also contains an "@". -/
def c6Entities : List Entity :=
  [⟨"", "PER"⟩, ⟨"Max Mustermann", "PER"⟩, ⟨"1234567@89", "MISC"⟩, ⟨"0123456789", "MISC"⟩]

/-- C6 counterexample: the claim predicts name = text of the first
person-tagged entity (here "") and phone = text of the first MISC entity
passing the phone heuristic (here "1234567@89", which both contains "@" and
passes the heuristic); the loop instead yields name "Max Mustermann" and
phone "0123456789" (the "@"-entity is consumed by the email slot). -/
theorem claim_C6_counterexample :
    resolveLoop c6Entities "" "" "" = ("Max Mustermann", "1234567@89", "0123456789") ∧
    (c6Entities.filter (fun ent => ent.entity_group == "PER")).head?.map Entity.word
      = some "" ∧
    (c6Entities.filter
        (fun ent => ent.entity_group == "MISC" && is_phone_number ent.word)).head?.map
      Entity.word = some "1234567@89" := by
  decide

/-- C6 (amended): identity resolution iterates the entity sequence once in
order; `name` is the word of the first person-tagged entity with non-empty
text, `email` the word of the first miscellaneous-tagged entity containing
"@", and `phone` the word of the first miscellaneous-tagged entity that
passes the phone-shape heuristic and is not consumed by the email slot (an
"@"-containing MISC entity seen while email is still unset becomes the
email, even if it also passes the phone heuristic); each field is sticky
once it holds a non-empty value. -/
theorem claim_C6 (es : List Entity) :
    resolveLoop es "" "" "" = (firstNamePER es, firstEmailMISC es, firstPhoneMISC es false) := by
  have h1 : (resolveLoop es "" "" "").1 = firstNamePER es := by
    rw [resolve_name]
    rfl
  have h2 : (resolveLoop es "" "" "").2.1 = firstEmailMISC es := by
    rw [resolve_email]
    rfl
  have h3 : (resolveLoop es "" "" "").2.2 = firstPhoneMISC es false := by
    rw [resolve_phone]
    rfl
  rw [← h1, ← h2, ← h3]

/-- C10: in the identity-resolution step, the email check takes priority
over the phone check for the same entity: while email is unset, a MISC
entity whose text contains "@" is assigned to email (never to phone in that
step), regardless of the phone heuristic; once email is set, a later
"@"-containing MISC entity passing the heuristic is assigned to phone. -/
theorem claim_C10 :
    (∀ (ent : Entity) (rest : List Entity) (n p : String),
        ent.entity_group = "MISC" → ent.word.data.contains '@' = true →
          resolveLoop (ent :: rest) n "" p = resolveLoop rest n ent.word p) ∧
    (∀ (ent : Entity) (rest : List Entity) (n em : String),
        em ≠ "" → ent.entity_group = "MISC" → ent.word.data.contains '@' = true →
          is_phone_number ent.word = true →
          resolveLoop (ent :: rest) n em "" = resolveLoop rest n em ent.word) := by
  constructor
  · intro ent rest n p hg hat
    simp only [resolveLoop]
    rw [if_neg (fun hx => by rw [hg] at hx; exact absurd hx.1 (by decide)),
      if_pos ⟨hg, hat, by trivial⟩]
  · intro ent rest n em hem hg hat hph
    simp only [resolveLoop]
    rw [if_neg (fun hx => by rw [hg] at hx; exact absurd hx.1 (by decide)),
      if_neg (fun hx => hem hx.2.2),
      if_pos ⟨hg, hph, by trivial⟩]

/-- C10 witness: the entity "1234567@89" (MISC, contains "@", passes the
phone heuristic) goes to the email slot while email is unset, and to the
phone slot once email already holds "x@y". -/
theorem claim_C10_witness :
    resolveLoop [⟨"1234567@89", "MISC"⟩] "" "" ""
      = resolveLoop [] "" "1234567@89" "" ∧
    resolveLoop [⟨"1234567@89", "MISC"⟩] "" "x@y" ""
      = resolveLoop [] "" "x@y" "1234567@89" :=
  ⟨claim_C10.1 ⟨"1234567@89", "MISC"⟩ [] "" "" rfl (by decide),
   claim_C10.2 ⟨"1234567@89", "MISC"⟩ [] "" "x@y" (by decide) rfl (by decide) (by decide)⟩

/-- C9: with deterministic recognizer and summarizer capabilities, two
successful calls of `extract_candidate_data` on the same input text (on two
dates) yield profiles that agree on every field except the generation-date
remark `zusaetzliche_bemerkungen`. -/
theorem claim_C9 (ner : Option NerFn) (summ : Option SummFn) (raw d1 d2 : String)
    (p1 p2 : Profile)
    (h1 : extract_candidate_data ner summ d1 raw = Except.ok p1)
    (h2 : extract_candidate_data ner summ d2 raw = Except.ok p2) :
    p1.job_title = p2.job_title ∧ p1.einkaufskurzprofil = p2.einkaufskurzprofil ∧
    p1.stundenverrechnungssatz = p2.stundenverrechnungssatz ∧
    p1.starttermin = p2.starttermin ∧ p1.name = p2.name ∧ p1.email = p2.email ∧
    p1.phone = p2.phone ∧ p1.berufserfahrung = p2.berufserfahrung ∧
    p1.ausbildung = p2.ausbildung ∧ p1.edv_kenntnisse = p2.edv_kenntnisse ∧
    p1.sonstige_techniken = p2.sonstige_techniken ∧
    p1.sprachkenntnisse = p2.sprachkenntnisse ∧ p1.summary = p2.summary := by
  by_cases hraw : pyStrip raw = ""
  · unfold extract_candidate_data at h1 h2
    rw [if_pos hraw] at h1 h2
    injection h1 with h1
    injection h2 with h2
    subst h1
    subst h2
    exact ⟨rfl, rfl, rfl, rfl, rfl, rfl, rfl, rfl, rfl, rfl, rfl, rfl, rfl⟩
  · rcases hent : extract_entities ner raw with e | ents
    · rw [ecd_entities_error ner summ d1 raw e hraw hent] at h1
      exact Except.noConfusion h1
    · rcases hsum : summarize_text summ raw with e | s
      · rw [ecd_sum_error ner summ d1 raw ents e hraw hent hsum] at h1
        exact Except.noConfusion h1
      · rw [ecd_ok ner summ d1 raw ents s hraw hent hsum] at h1
        rw [ecd_ok ner summ d2 raw ents s hraw hent hsum] at h2
        injection h1 with h1
        injection h2 with h2
        subst h1
        subst h2
        exact ⟨rfl, rfl, rfl, rfl, rfl, rfl, rfl, rfl, rfl, rfl, rfl, rfl, rfl⟩

/-- C9 demo profile generated on 01.01.2025. -/
def demoProfileA : Profile :=
  { job_title := "SAP Meister/Techniker", einkaufskurzprofil := "X|YYY|XXX|Z",
    stundenverrechnungssatz := "€", starttermin := "01.04.2025",
    name := "", email := "", phone := "", berufserfahrung := [], ausbildung := [],
    edv_kenntnisse := [], sonstige_techniken := [], sprachkenntnisse := [],
    summary := "Z", zusaetzliche_bemerkungen := "Profil automatisch generiert am 01.01.2025" }

/-- C9 demo profile generated on 02.01.2025. -/
def demoProfileB : Profile :=
  { job_title := "SAP Meister/Techniker", einkaufskurzprofil := "X|YYY|XXX|Z",
    stundenverrechnungssatz := "€", starttermin := "01.04.2025",
    name := "", email := "", phone := "", berufserfahrung := [], ausbildung := [],
    edv_kenntnisse := [], sonstige_techniken := [], sprachkenntnisse := [],
    summary := "Z", zusaetzliche_bemerkungen := "Profil automatisch generiert am 02.01.2025" }

/-- C9 witness: two runs on "Hallo Welt" with a mocked recognizer and
summarizer, on two dates, agree on all thirteen non-remark fields. -/
theorem claim_C9_witness :
    demoProfileA.job_title = demoProfileB.job_title ∧
    demoProfileA.einkaufskurzprofil = demoProfileB.einkaufskurzprofil ∧
    demoProfileA.stundenverrechnungssatz = demoProfileB.stundenverrechnungssatz ∧
    demoProfileA.starttermin = demoProfileB.starttermin ∧
    demoProfileA.name = demoProfileB.name ∧ demoProfileA.email = demoProfileB.email ∧
    demoProfileA.phone = demoProfileB.phone ∧
    demoProfileA.berufserfahrung = demoProfileB.berufserfahrung ∧
    demoProfileA.ausbildung = demoProfileB.ausbildung ∧
    demoProfileA.edv_kenntnisse = demoProfileB.edv_kenntnisse ∧
    demoProfileA.sonstige_techniken = demoProfileB.sonstige_techniken ∧
    demoProfileA.sprachkenntnisse = demoProfileB.sprachkenntnisse ∧
    demoProfileA.summary = demoProfileB.summary :=
  claim_C9 (some (fun _ => Except.ok [])) (some (fun _ _ _ => Except.ok "Z")) "Hallo Welt"
    "01.01.2025" "02.01.2025" demoProfileA demoProfileB (by decide) (by decide)

/-- C1 counterexample: with a recognizer capability that raises, the
assemble operation does not propagate any error — it succeeds and returns
exactly the profile obtained when the recognizer returns no entities. -/
theorem claim_C1_counterexample :
    extract_candidate_data (some (fun _ => Except.error "CUDA error"))
        (some (fun _ _ _ => Except.ok "Z")) "01.01.2025" "Hallo Welt"
      = extract_candidate_data (some (fun _ => Except.ok []))
        (some (fun _ _ _ => Except.ok "Z")) "01.01.2025" "Hallo Welt" ∧
    (extract_candidate_data (some (fun _ => Except.error "CUDA error"))
        (some (fun _ _ _ => Except.ok "Z")) "01.01.2025" "Hallo Welt").isOk = true := by
  decide

/-- C1 (amended): only unavailability of the entity-recognition capability
(pipeline never loaded) propagates to the caller of
`extract_candidate_data` as a hard error; an error RAISED by the recognizer
is caught inside `extract_entities` and converted to the empty entity list,
so the caller receives the same successful profile (name/email/phone empty)
as when the recognizer returns no entities — indistinguishable from it. -/
theorem claim_C1 (summ : Option SummFn) (today raw : String) (hraw : ¬pyStrip raw = "")
    (f : NerFn) (err : String) (hf : f raw = Except.error err) :
    extract_candidate_data none summ today raw = Except.error "NER pipeline not loaded" ∧
    extract_candidate_data (some f) summ today raw
      = extract_candidate_data (some (fun _ => Except.ok [])) summ today raw := by
  constructor
  · exact ecd_entities_error none summ today raw _ hraw rfl
  · have h1 : extract_entities (some f) raw = Except.ok [] := by
      show (match f raw with
        | Except.ok res => Except.ok res
        | Except.error _ => Except.ok []) = Except.ok ([] : List Entity)
      rw [hf]
    have h2 : extract_entities (some (fun _ => Except.ok ([] : List Entity))) raw
        = Except.ok [] := rfl
    unfold extract_candidate_data
    rw [if_neg hraw, if_neg hraw, h1, h2]

/-- C1 witness: on "Hallo Welt", a missing recognizer errors out, while a
raising recognizer produces the same result as one returning no entities. -/
theorem claim_C1_witness :
    extract_candidate_data none (some (fun _ _ _ => Except.ok "Z")) "01.01.2025" "Hallo Welt"
      = Except.error "NER pipeline not loaded" ∧
    extract_candidate_data (some (fun _ => Except.error "CUDA kaputt"))
        (some (fun _ _ _ => Except.ok "Z")) "01.01.2025" "Hallo Welt"
      = extract_candidate_data (some (fun _ => Except.ok []))
        (some (fun _ _ _ => Except.ok "Z")) "01.01.2025" "Hallo Welt" :=
  claim_C1 (some (fun _ _ _ => Except.ok "Z")) "01.01.2025" "Hallo Welt" (by decide)
    (fun _ => Except.error "CUDA kaputt") "CUDA kaputt" rfl

/-- C8 counterexample: on the non-empty input "Hallo Welt" the core itself
returns the four header fields already filled with the fixed template
defaults — not as empty placeholders. -/
theorem claim_C8_counterexample :
    (extract_candidate_data (some (fun _ => Except.ok []))
        (some (fun _ _ _ => Except.ok "Z")) "01.01.2025" "Hallo Welt").toOption.map
        Profile.job_title = some "SAP Meister/Techniker" ∧
    (extract_candidate_data (some (fun _ => Except.ok []))
        (some (fun _ _ _ => Except.ok "Z")) "01.01.2025" "Hallo Welt").toOption.map
        Profile.einkaufskurzprofil = some "X|YYY|XXX|Z" ∧
    (extract_candidate_data (some (fun _ => Except.ok []))
        (some (fun _ _ _ => Except.ok "Z")) "01.01.2025" "Hallo Welt").toOption.map
        Profile.starttermin = some "01.04.2025" ∧
    ("SAP Meister/Techniker" : String) ≠ "" := by
  decide

/-- C8 (amended): for every non-empty input on which extraction succeeds,
`extract_candidate_data` itself sets the four header fields to the fixed
template defaults (equal to the DEFAULT_* values of config.py), so the
app-layer defaulting step `add_default_values` of
`generate_profile_from_text` leaves the profile unchanged. -/
theorem claim_C8 (ner : Option NerFn) (summ : Option SummFn) (today raw : String)
    (p : Profile) (hraw : ¬pyStrip raw = "")
    (hp : extract_candidate_data ner summ today raw = Except.ok p) :
    p.job_title = DEFAULT_JOB_TITLE ∧ p.einkaufskurzprofil = DEFAULT_EKP ∧
    p.stundenverrechnungssatz = DEFAULT_SVS ∧ p.starttermin = DEFAULT_START_DATE ∧
    add_default_values p = p := by
  rcases hent : extract_entities ner raw with e | ents
  · rw [ecd_entities_error ner summ today raw e hraw hent] at hp
    exact Except.noConfusion hp
  · rcases hsum : summarize_text summ raw with e | s
    · rw [ecd_sum_error ner summ today raw ents e hraw hent hsum] at hp
      exact Except.noConfusion hp
    · rw [ecd_ok ner summ today raw ents s hraw hent hsum] at hp
      injection hp with hp
      subst hp
      exact ⟨rfl, rfl, rfl, rfl, rfl⟩

/-- C8 witness: the run on "Hallo Welt" yields `demoProfileA`, whose header
fields carry the defaults and which `add_default_values` leaves unchanged. -/
theorem claim_C8_witness :
    demoProfileA.job_title = DEFAULT_JOB_TITLE ∧
    demoProfileA.einkaufskurzprofil = DEFAULT_EKP ∧
    demoProfileA.stundenverrechnungssatz = DEFAULT_SVS ∧
    demoProfileA.starttermin = DEFAULT_START_DATE ∧
    add_default_values demoProfileA = demoProfileA :=
  claim_C8 (some (fun _ => Except.ok [])) (some (fun _ _ _ => Except.ok "Z")) "01.01.2025"
    "Hallo Welt" demoProfileA (by decide) (by decide)
